import Mathlib

/-!
Verification of the loan-offer computation, loan lifecycle operations and
assistant tool-dispatch of the modern-loan-app backend, shallowly embedded
from `backend/app/api/routes/loans.py`, `backend/app/services/ai_assistant.py`,
`backend/app/models/schemas.py` and `backend/app/config.py`.

Monetary values are modelled as rationals; Python's `round(x, 2)` (which on
these inputs is round-half-to-even) is modelled by `round2`.  Database tables
are modelled as lists kept in insertion (creation) order, so a query ordered
by `created_at desc` reads the list from the back.
-/

namespace LoanApp

/-! ### Configuration (config.py, Settings) -/

def DEFAULT_INTEREST_RATE : ℚ := 15
def MIN_LOAN_AMOUNT : ℚ := 1000
def MAX_LOAN_AMOUNT : ℚ := 50000
def DEFAULT_LOAN_TENURE_DAYS : ℤ := 30

/-! ### Rounding: Python round(x, 2), half-to-even -/

/-- Round a rational to the nearest integer, ties to even (banker's rounding,
as Python's builtin `round`). -/
def roundHalfEven (q : ℚ) : ℤ :=
  let f := ⌊q⌋
  if q - f < 1/2 then f
  else if q - f > 1/2 then f + 1
  else if f % 2 = 0 then f else f + 1

/-- `round(x, 2)`: round to two decimal places. -/
def round2 (q : ℚ) : ℚ := (roundHalfEven (q * 100) : ℚ) / 100

/-! ### Enumerations (schemas.py) -/

inductive LoanStatus where
  | pending
  | approved
  | rejected
  | active
  | completed
  | defaulted
deriving DecidableEq

inductive TransactionType where
  | disbursement
  | repayment
  | fee
  | penalty
  | refund
deriving DecidableEq

/-! ### Loan offer computation (routes/loans.py, calculate_loan) -/

/-- The fields of `LoanCalculateResponse`. -/
structure LoanOffer where
  amount : ℚ
  interest_rate : ℚ
  tenure_days : ℤ
  interest_amount : ℚ
  total_repayment : ℚ
  daily_interest : ℚ
deriving DecidableEq

/-- Errors surfaced by the loan routes: pydantic request-validation failures
(HTTP 422) and explicit `HTTPException`s. -/
inductive LoanApiError where
  | validationError
  | badRequest (detail : String)
  | notFound
  | forbidden
deriving DecidableEq

/-- `POST /loans/calculate` (routes/loans.py `calculate_loan`), including the
pydantic constraints of `LoanCalculateRequest` (`amount > 0`,
`tenure_days > 0` with default 30).  The route substitutes defaults with
Python `or`, so a (falsy) rate of `0` is replaced by the configured default. -/
def calculate_loan (amount : ℚ) (interest_rate? : Option ℚ)
    (tenure_days? : Option ℤ) : Except LoanApiError LoanOffer :=
  if amount ≤ 0 then .error .validationError
  else
    let td0 := tenure_days?.getD DEFAULT_LOAN_TENURE_DAYS
    if td0 ≤ 0 then .error .validationError
    else
      let rate :=
        match interest_rate? with
        | none => DEFAULT_INTEREST_RATE
        | some r => if r = 0 then DEFAULT_INTEREST_RATE else r
      let td := if td0 = 0 then DEFAULT_LOAN_TENURE_DAYS else td0
      if amount < MIN_LOAN_AMOUNT ∨ amount > MAX_LOAN_AMOUNT then
        .error (.badRequest "Loan amount must be between 1000.0 and 50000.0")
      else
        let interest_amount := amount * rate / 100 * ((td : ℚ) / 30)
        let total_repayment := amount + interest_amount
        let daily_interest := interest_amount / (td : ℚ)
        .ok ⟨amount, rate, td, round2 interest_amount, round2 total_repayment,
          round2 daily_interest⟩

/-- Rounding an integer changes nothing. -/
theorem round2_int (n : ℤ) : round2 (n : ℚ) = (n : ℚ) := by
  have h : ((n : ℚ)) * 100 = ((n * 100 : ℤ) : ℚ) := by push_cast; ring
  unfold round2 roundHalfEven
  rw [h, Int.floor_intCast]
  simp only [sub_self]
  rw [if_pos (show (0:ℚ) < 1/2 by norm_num)]
  push_cast
  ring

end LoanApp

namespace LoanApp

/-! ### Database rows (schemas.py / supabase tables)

Tables are lists in insertion order; `created_at desc` reads from the back. -/

/-- A row of the `loans` table (the columns the loan routes read or write). -/
structure Loan where
  id : String
  user_id : String
  amount : ℚ
  interest_rate : ℚ
  tenure_days : ℤ
  total_repayment : ℚ
  status : LoanStatus
  approved_by : Option String
  approved_at : Option String
  ai_decision : Option String
  ai_confidence : Option ℚ
deriving DecidableEq

/-- A row of the `transactions` table. -/
structure Transaction where
  loan_id : String
  user_id : String
  type : TransactionType
  amount : ℚ
  balance_after : Option ℚ
  notes : Option String
deriving DecidableEq

/-- The business-profile fields collected by `complete_onboarding`. -/
structure ProfileData where
  business_name : Option String
  business_type : Option String
  business_location : Option String
  years_in_business : Option ℚ
  monthly_revenue : Option ℚ
  monthly_expenses : Option ℚ
deriving DecidableEq

/-- A row of the `customer_profiles` table. -/
structure CustomerProfile where
  user_id : String
  data : ProfileData
  onboarding_completed : Bool
  onboarding_completed_at : Option String
deriving DecidableEq

/-- The database state touched by the loan routes and the assistant tools. -/
structure DB where
  loans : List Loan
  transactions : List Transaction
  profiles : List CustomerProfile
deriving DecidableEq

/-! ### POST /loans/loan_id/accept (routes/loans.py, accept_loan) -/

/-- The `loans` update issued by `accept_loan`: set status `approved` and stamp
`approved_at` on every row matching the id. -/
def acceptUpdateLoans (lid now : String) (loans : List Loan) : List Loan :=
  loans.map fun l =>
    if l.id = lid then { l with status := .approved, approved_at := some now } else l

/-- The disbursement transaction inserted by `accept_loan`. -/
def disbursementTx (lid uid : String) (loan : Loan) : Transaction :=
  ⟨lid, uid, .disbursement, loan.amount, some loan.total_repayment, some "Loan disbursement"⟩

/-- `accept_loan` (routes/loans.py): look up the loan by id and owner, reject a
non-`pending` loan with HTTP 400, otherwise update the status and insert the
disbursement transaction (two separate writes, no transactional boundary). -/
def accept_loan (lid uid now : String) (db : DB) : Except LoanApiError Loan × DB :=
  match (db.loans.filter fun l => l.id == lid && l.user_id == uid).head? with
  | none => (.error .notFound, db)
  | some loan =>
    if loan.status ≠ .pending then
      (.error (.badRequest "Loan cannot be accepted in current status"), db)
    else
      let loans' := acceptUpdateLoans lid now db.loans
      let db2 : DB := ⟨loans', db.transactions ++ [disbursementTx lid uid loan], db.profiles⟩
      match (loans'.filter fun l => l.id == lid).head? with
      | some ul => (.ok ul, db2)
      | none => (.error .notFound, db2)

/-- The state `accept_loan` leaves behind when the second write (the
transaction insert) fails after the first write (the status update) has been
issued: the status update alone persists, because the source wraps the two
writes in no transaction. -/
def accept_loan_crashAtInsert (lid uid now : String) (db : DB) : DB :=
  match (db.loans.filter fun l => l.id == lid && l.user_id == uid).head? with
  | none => db
  | some loan =>
    if loan.status ≠ .pending then db
    else ⟨acceptUpdateLoans lid now db.loans, db.transactions, db.profiles⟩

/-! ### PUT /loans/loan_id/status (routes/loans.py, update_loan_status) -/

/-- The per-row update `update_loan_status` issues: the requested status plus
the advisory fields, and approver/approval-time stamps when the requested
status is `approved`.  No check of the current status is made. -/
def applyStatusUpdate (st : LoanStatus) (dec : Option String) (conf : Option ℚ)
    (actor now : String) (l : Loan) : Loan :=
  let l' := { l with status := st, ai_decision := dec, ai_confidence := conf }
  if st = .approved then { l' with approved_by := some actor, approved_at := some now } else l'

/-- `update_loan_status` (routes/loans.py): update every `loans` row matching
the id with the requested status; 404 when nothing matched; no validation of
the (current status, new status) pair. -/
def update_loan_status (lid : String) (st : LoanStatus) (dec : Option String)
    (conf : Option ℚ) (actor now : String) (db : DB) : Except LoanApiError Loan × DB :=
  let loans' := db.loans.map fun l =>
    if l.id = lid then applyStatusUpdate st dec conf actor now l else l
  match (loans'.filter fun l => l.id == lid).head? with
  | none => (.error .notFound, db)
  | some l' => (.ok l', ⟨loans', db.transactions, db.profiles⟩)

/-! ### Assistant tool handlers (services/ai_assistant.py) -/

/-- A Python exception escaping a tool handler. -/
inductive PyError where
  | keyError (key : String)
  | zeroDivision
deriving DecidableEq

/-- The JSON payloads the four tool handlers (and the unknown-name fallback)
return to the assistant run. -/
inductive FunctionResult where
  | offer (o : LoanOffer)
  | acceptance (success : Bool) (status : LoanStatus)
  | loanInfo (loans : List Loan) (transactions : List Transaction)
  | onboarded (success completed : Bool)
  | errorResult (msg : String)
deriving DecidableEq

/-- The argument bag a tool call carries (absent key = absent field). -/
structure FunctionArgs where
  amount : Option ℚ
  interest_rate : Option ℚ
  tenure_days : Option ℤ
  loan_id : Option String
  accepted : Option Bool
  user_id : Option String
  profile_data : Option ProfileData
deriving DecidableEq

/-- `AIAssistantManager._calculate_loan`: no range validation on `amount`;
defaults come from `dict.get`, so an explicit rate of `0` is kept (unlike the
HTTP route); a tenure of `0` raises `ZeroDivisionError` at `daily_interest`. -/
def aiCalculateLoan (args : FunctionArgs) : Except PyError LoanOffer :=
  match args.amount with
  | none => .error (.keyError "amount")
  | some amount =>
    let rate := args.interest_rate.getD DEFAULT_INTEREST_RATE
    let td := args.tenure_days.getD DEFAULT_LOAN_TENURE_DAYS
    if td = 0 then .error .zeroDivision
    else
      let interest_amount := amount * rate / 100 * ((td : ℚ) / 30)
      .ok ⟨amount, rate, td, round2 interest_amount, round2 (amount + interest_amount),
        round2 (interest_amount / (td : ℚ))⟩

/-- `AIAssistantManager._store_acceptance`: update every `loans` row matching
`loan_id` — no status precondition, no ownership check — and report success
whether or not anything matched. -/
def store_acceptance (lid : String) (accepted : Bool) (db : DB) : FunctionResult × DB :=
  let st : LoanStatus := if accepted then .approved else .rejected
  let loans' := db.loans.map fun l =>
    if l.id = lid then
      { l with status := st, approved_at := if accepted then some "now()" else none }
    else l
  (.acceptance true st, ⟨loans', db.transactions, db.profiles⟩)

/-- `AIAssistantManager._get_loan_info`: the user's loans newest first and the
user's last 10 transactions newest first. -/
def get_loan_info (uid : String) (db : DB) : FunctionResult :=
  .loanInfo ((db.loans.filter fun l => l.user_id == uid).reverse)
    (((db.transactions.filter fun t => t.user_id == uid).reverse).take 10)

/-- Replace-or-append on `customer_profiles`, keyed by `user_id` (supabase
`upsert`). -/
def upsertProfile (p : CustomerProfile) (ps : List CustomerProfile) : List CustomerProfile :=
  if ps.any fun q => q.user_id == p.user_id then
    ps.map fun q => if q.user_id = p.user_id then p else q
  else ps ++ [p]

/-- `AIAssistantManager._execute_function`: dispatch a tool call by name to one
of the four handlers; any other name yields the error payload, no exception. -/
def execute_function (name : String) (args : FunctionArgs) (uid : String) (db : DB) :
    Except PyError FunctionResult × DB :=
  if name = "calculate_loan_offer" then
    match aiCalculateLoan args with
    | .error e => (.error e, db)
    | .ok o => (.ok (.offer o), db)
  else if name = "store_customer_acceptance" then
    match args.loan_id, args.accepted with
    | none, _ => (.error (.keyError "loan_id"), db)
    | some _, none => (.error (.keyError "accepted"), db)
    | some lid, some acc =>
      let (res, db') := store_acceptance lid acc db
      (.ok res, db')
  else if name = "get_loan_info" then
    (.ok (get_loan_info uid db), db)
  else if name = "complete_onboarding" then
    match args.user_id, args.profile_data with
    | none, _ => (.error (.keyError "user_id"), db)
    | some _, none => (.error (.keyError "profile_data"), db)
    | some u, some pd =>
      (.ok (.onboarded true true),
        ⟨db.loans, db.transactions, upsertProfile ⟨u, pd, true, some "now()"⟩ db.profiles⟩)
  else
    (.ok (.errorResult "Unknown function"), db)

/-- `AIAssistantManager._handle_tool_calls`: run each tool call in order,
collecting the outputs; a Python exception aborts the batch (writes already
made persist). -/
def handle_tool_calls (uid : String) :
    List (String × FunctionArgs) → DB → Except PyError (List FunctionResult) × DB
  | [], db => (.ok [], db)
  | (n, a) :: rest, db =>
    match execute_function n a uid db with
    | (.error e, db') => (.error e, db')
    | (.ok r, db') =>
      match handle_tool_calls uid rest db' with
      | (.error e, db'') => (.error e, db'')
      | (.ok rs, db'') => (.ok (r :: rs), db'')

/-! ### The run poll loop (services/ai_assistant.py, send_message) -/

/-- Run statuses the poll loop observes; `requiresAction` carries the tool
calls the run asks for. -/
inductive RunStatus where
  | queued
  | in_progress
  | requiresAction (calls : List (String × FunctionArgs))
  | completed
  | failed
  | cancelled
  | expired

/-- Outcome of the poll loop over one observed trace of run statuses. -/
inductive RunOutcome where
  | completed
  | terminated (status : String)
  | toolError (e : PyError)
  | polling
deriving DecidableEq

/-- The `while True` poll loop of `send_message`, consuming the observed trace
of run statuses: break on `completed`; dispatch tools and keep polling on
`requires_action`; raise on `failed`/`cancelled`/`expired`; keep polling on
anything else.  `polling` marks a trace that ended with the loop still
spinning (the source has no timeout). -/
def runLoop (uid : String) : List RunStatus → DB → RunOutcome × DB
  | [], db => (.polling, db)
  | .completed :: _, db => (.completed, db)
  | .failed :: _, db => (.terminated "failed", db)
  | .cancelled :: _, db => (.terminated "cancelled", db)
  | .expired :: _, db => (.terminated "expired", db)
  | .requiresAction calls :: rest, db =>
    match handle_tool_calls uid calls db with
    | (.error e, db') => (.toolError e, db')
    | (.ok _, db') => runLoop uid rest db'
  | .queued :: rest, db => runLoop uid rest db
  | .in_progress :: rest, db => runLoop uid rest db

/-- A row of the `messages` table. -/
structure MessageRow where
  thread_id : String
  role : String
  content : String
deriving DecidableEq

/-- `AIAssistantManager._store_message`: insert a message row if the thread is
known in `conversation_threads`, silently skip otherwise. -/
def store_message (threadKnown : Bool) (tid role content : String)
    (msgs : List MessageRow) : List MessageRow :=
  if threadKnown then msgs ++ [⟨tid, role, content⟩] else msgs

/-- What `send_message` hands back to the chat route (or raises). -/
inductive SendResult where
  | reply (message tid : String)
  | noReply
  | runFailed (status : String)
  | toolError (e : PyError)
  | polling
deriving DecidableEq

/-- `AIAssistantManager.send_message`: store the user message, poll the run,
and on completion store and return the newest assistant message
(`latest`); on a `failed`/`cancelled`/`expired` run raise carrying the
status, storing nothing further. -/
def send_message (threadKnown : Bool) (tid msg uid : String)
    (statuses : List RunStatus) (latest : Option String) (db : DB)
    (msgs : List MessageRow) : SendResult × DB × List MessageRow :=
  let msgs1 := store_message threadKnown tid "user" msg msgs
  match runLoop uid statuses db with
  | (.completed, db') =>
    match latest with
    | some am => (.reply am tid, db', store_message threadKnown tid "assistant" am msgs1)
    | none => (.noReply, db', msgs1)
  | (.terminated st, db') => (.runFailed st, db', msgs1)
  | (.toolError e, db') => (.toolError e, db', msgs1)
  | (.polling, db') => (.polling, db', msgs1)

/-! ### Conversation threads (services/ai_assistant.py, get_or_create_thread) -/

/-- A row of the `conversation_threads` table. -/
structure ThreadRow where
  user_id : String
  openai_thread_id : String
  status : String
  created_at : ℕ
deriving DecidableEq

/-- The thread store plus the hosted API's id source; `clock` is the next
`created_at` stamp (strictly later than every stored row's). -/
structure ThreadState where
  rows : List ThreadRow
  clock : ℕ
  nextId : ℕ
deriving DecidableEq

/-- The row `order created_at desc limit 1` returns. -/
def latestRow : List ThreadRow → Option ThreadRow
  | [] => none
  | x :: xs =>
    match latestRow xs with
    | none => some x
    | some b => if b.created_at > x.created_at then some b else some x

/-- The `conversation_threads` query of `get_or_create_thread`: rows of this
user with status `active`, newest first, limit 1. -/
def lookupActiveThread (uid : String) (rows : List ThreadRow) : Option ThreadRow :=
  latestRow (rows.filter fun r => r.user_id == uid && r.status == "active")

/-- `get_or_create_thread`: return the most recent active thread's external
handle, or create a thread via the hosted API, persist the mapping with
status `active`, and return the new handle. -/
def get_or_create_thread (uid : String) (s : ThreadState) : String × ThreadState :=
  match lookupActiveThread uid s.rows with
  | some r => (r.openai_thread_id, s)
  | none =>
    let ext := "thread-" ++ toString s.nextId
    (ext, ⟨s.rows ++ [⟨uid, ext, "active", s.clock⟩], s.clock + 1, s.nextId + 1⟩)

/-- Timestamps already stored all precede the clock. -/
def ThreadState.WF (s : ThreadState) : Prop :=
  ∀ r ∈ s.rows, r.created_at < s.clock

end LoanApp

namespace LoanApp

/-! ### Claims about the offer computation -/

/-- Claim C1 (amended): for every amount in the configured range, every
tenure above 0 and every NONZERO rate, the route computes
`interestAmount = amount * rate/100 * (tenureDays/30)`,
`totalRepayment = amount + interestAmount` and
`dailyInterest = interestAmount / tenureDays`, each rounded to 2 decimal
places.  (A rate of exactly 0 is falsy in Python, so the route's
`request.interest_rate or settings.DEFAULT_INTEREST_RATE` silently replaces
it by the default 15 — see the counterexample.) -/
theorem calculate_loan_formula (amount rate : ℚ) (td : ℤ)
    (hmin : MIN_LOAN_AMOUNT ≤ amount) (hmax : amount ≤ MAX_LOAN_AMOUNT)
    (htd : 0 < td) (hrate : rate ≠ 0) :
    calculate_loan amount (some rate) (some td) =
      .ok ⟨amount, rate, td,
        round2 (amount * rate / 100 * ((td : ℚ) / 30)),
        round2 (amount + amount * rate / 100 * ((td : ℚ) / 30)),
        round2 (amount * rate / 100 * ((td : ℚ) / 30) / (td : ℚ))⟩ := by
  have h1000 : (1000 : ℚ) ≤ amount := by
    simpa [MIN_LOAN_AMOUNT] using hmin
  have hA : ¬ amount ≤ 0 := by linarith
  have hB : ¬ td ≤ 0 := by omega
  have hD : ¬ td = 0 := by omega
  have hE : ¬ (amount < MIN_LOAN_AMOUNT ∨ amount > MAX_LOAN_AMOUNT) := by
    push_neg
    exact ⟨hmin, hmax⟩
  unfold calculate_loan
  simp only [Option.getD_some]
  rw [if_neg hA, if_neg hB]
  simp only [if_neg hrate, if_neg hD, if_neg hE]

/-- Claim C1, counterexample to the claim as stated: at the accepted input
`(amount, rate, tenureDays) = (1000, 0, 30)` the code returns
`interestAmount = 150.00` while the claimed formula yields
`round2 (1000 * 0/100 * (30/30)) = 0`. -/
theorem calculate_loan_rate_zero_cex :
    (calculate_loan 1000 (some 0) (some 30)).toOption.map LoanOffer.interest_amount
      = some 150 ∧
    round2 ((1000 : ℚ) * 0 / 100 * ((30 : ℚ) / 30)) = 0 ∧
    (150 : ℚ) ≠ 0 := by
  refine ⟨?_, ?_, by norm_num⟩
  · norm_num [calculate_loan, MIN_LOAN_AMOUNT, MAX_LOAN_AMOUNT,
      DEFAULT_INTEREST_RATE, DEFAULT_LOAN_TENURE_DAYS, Except.toOption]
    rw [show (150 : ℚ) = ((150 : ℤ) : ℚ) by norm_num, round2_int]
  · rw [show ((1000 : ℚ) * 0 / 100 * ((30 : ℚ) / 30)) = ((0 : ℤ) : ℚ) by
      push_cast; norm_num]
    rw [round2_int]
    norm_num

/-- Claim C1, witness: the spec's own example,
`compute_offer(1000, 15, 30) = (150.00, 1150.00, 5.00)`. -/
theorem calculate_loan_formula_witness :
    calculate_loan 1000 (some 15) (some 30) = .ok ⟨1000, 15, 30, 150, 1150, 5⟩ := by
  have e1 : round2 (150 : ℚ) = 150 := by
    rw [show (150 : ℚ) = ((150 : ℤ) : ℚ) by norm_num, round2_int]
  have e2 : round2 (1150 : ℚ) = 1150 := by
    rw [show (1150 : ℚ) = ((1150 : ℤ) : ℚ) by norm_num, round2_int]
  have e3 : round2 (5 : ℚ) = 5 := by
    rw [show (5 : ℚ) = ((5 : ℤ) : ℚ) by norm_num, round2_int]
  rw [calculate_loan_formula 1000 15 30 (by norm_num [MIN_LOAN_AMOUNT])
    (by norm_num [MAX_LOAN_AMOUNT]) (by norm_num) (by norm_num)]
  norm_num [e1, e2, e3]

/-- Claim C4: with the other fields at their defaults, the offer computation
fails (pydantic 422 or HTTP 400) exactly when `amount ≤ 0` or
`amount < MIN_LOAN_AMOUNT` or `amount > MAX_LOAN_AMOUNT`; for every amount in
the inclusive configured range it succeeds. -/
theorem calculate_loan_validation_iff (amount : ℚ) :
    (∃ e, calculate_loan amount none none = .error e) ↔
      (amount ≤ 0 ∨ amount < MIN_LOAN_AMOUNT ∨ amount > MAX_LOAN_AMOUNT) := by
  unfold calculate_loan
  simp only [Option.getD_none]
  by_cases hA : amount ≤ 0
  · simp [hA]
  · rw [if_neg hA]
    rw [if_neg (by norm_num [DEFAULT_LOAN_TENURE_DAYS] : ¬ DEFAULT_LOAN_TENURE_DAYS ≤ 0)]
    by_cases hR : amount < MIN_LOAN_AMOUNT ∨ amount > MAX_LOAN_AMOUNT
    · simp [hR, hA]
    · simp [hR, hA]

/-- Claim C9: the `calculate_loan_offer` tool handler performs no range
validation: for EVERY amount (also 0, negative, below the minimum or above
the maximum) and nonzero tenure it returns a computed offer, never a
validation error — while the HTTP route rejects every out-of-range amount. -/
theorem ai_calculate_no_validation (amount : ℚ) (r? : Option ℚ) (td : ℤ)
    (htd : td ≠ 0) :
    aiCalculateLoan ⟨some amount, r?, some td, none, none, none, none⟩ =
      .ok ⟨amount, r?.getD DEFAULT_INTEREST_RATE, td,
        round2 (amount * r?.getD DEFAULT_INTEREST_RATE / 100 * ((td : ℚ) / 30)),
        round2 (amount + amount * r?.getD DEFAULT_INTEREST_RATE / 100 * ((td : ℚ) / 30)),
        round2 (amount * r?.getD DEFAULT_INTEREST_RATE / 100 * ((td : ℚ) / 30) / (td : ℚ))⟩
    ∧ ∀ q : ℚ, q < MIN_LOAN_AMOUNT ∨ q > MAX_LOAN_AMOUNT →
        ∃ e, calculate_loan q none none = .error e := by
  constructor
  · unfold aiCalculateLoan
    simp only [Option.getD_some]
    rw [if_neg htd]
  · intro q hq
    unfold calculate_loan
    by_cases hA : q ≤ 0
    · rw [if_pos hA]
      exact ⟨.validationError, rfl⟩
    · rw [if_neg hA]
      simp only [Option.getD_none]
      rw [if_neg (by norm_num [DEFAULT_LOAN_TENURE_DAYS] : ¬ DEFAULT_LOAN_TENURE_DAYS ≤ 0)]
      simp only [if_pos hq]
      exact ⟨_, rfl⟩

/-- Claim C9, witness: a negative amount of -7 (far below the configured
minimum of 1000) is accepted by the tool handler, while the route rejects it. -/
theorem ai_calculate_no_validation_witness :
    aiCalculateLoan ⟨some (-7), none, some 30, none, none, none, none⟩ =
      .ok ⟨-7, 15, 30, round2 ((-7 : ℚ) * 15 / 100 * (((30 : ℤ) : ℚ) / 30)),
        round2 ((-7 : ℚ) + (-7) * 15 / 100 * (((30 : ℤ) : ℚ) / 30)),
        round2 ((-7 : ℚ) * 15 / 100 * (((30 : ℤ) : ℚ) / 30) / ((30 : ℤ) : ℚ))⟩
    ∧ ∃ e, calculate_loan (-7) none none = .error e := by
  have h := ai_calculate_no_validation (-7) none 30 (by norm_num)
  refine ⟨?_, h.2 (-7) (Or.inl (by norm_num [MIN_LOAN_AMOUNT]))⟩
  simpa [DEFAULT_INTEREST_RATE] using h.1

end LoanApp

namespace LoanApp

/-! ### Claims about the loan lifecycle operations -/

/-- Claim C2 (code bug in the source): on a `pending` loan owned by the
caller the normal path does set the status to `approved`, stamp the approval
time and insert exactly one `disbursement` transaction with
`amount = loan.amount` and `balance_after = loan.total_repayment` — but the
two writes are NOT atomic: when the transaction insert fails after the
status update was issued, the `approved` status persists with zero
transaction rows. -/
theorem accept_loan_not_atomic :
    accept_loan "L1" "U1" "t0"
        ⟨[⟨"L1", "U1", 1000, 15, 30, 1150, .pending, none, none, none, none⟩], [], []⟩ =
      (.ok ⟨"L1", "U1", 1000, 15, 30, 1150, .approved, none, some "t0", none, none⟩,
        ⟨[⟨"L1", "U1", 1000, 15, 30, 1150, .approved, none, some "t0", none, none⟩],
          [⟨"L1", "U1", .disbursement, 1000, some 1150, some "Loan disbursement"⟩], []⟩) ∧
    accept_loan_crashAtInsert "L1" "U1" "t0"
        ⟨[⟨"L1", "U1", 1000, 15, 30, 1150, .pending, none, none, none, none⟩], [], []⟩ =
      ⟨[⟨"L1", "U1", 1000, 15, 30, 1150, .approved, none, some "t0", none, none⟩], [], []⟩ :=
  ⟨rfl, rfl⟩

/-- Claim C5: `accept_loan` on a loan found for the caller whose status is
not `pending` fails with HTTP 400 and leaves the database exactly as it was:
no status change, zero new transaction rows. -/
theorem accept_loan_non_pending_noop (db : DB) (lid uid now : String) (loan : Loan)
    (hfound : (db.loans.filter fun l => l.id == lid && l.user_id == uid).head? = some loan)
    (hst : loan.status ≠ .pending) :
    accept_loan lid uid now db =
      (.error (.badRequest "Loan cannot be accepted in current status"), db) := by
  unfold accept_loan
  simp only [hfound]
  rw [if_pos hst]

/-- Claim C5, witness: an `active` loan is rejected and the state is
untouched. -/
theorem accept_loan_non_pending_noop_witness :
    accept_loan "L2" "U2" "t1"
        ⟨[⟨"L2", "U2", 2000, 15, 30, 2300, .active, none, none, none, none⟩], [], []⟩ =
      (.error (.badRequest "Loan cannot be accepted in current status"),
        ⟨[⟨"L2", "U2", 2000, 15, 30, 2300, .active, none, none, none, none⟩], [], []⟩) :=
  accept_loan_non_pending_noop _ "L2" "U2" "t1"
    ⟨"L2", "U2", 2000, 15, 30, 2300, .active, none, none, none, none⟩ rfl (by decide)

/-- Claim C3, counterexample to the claim as stated: the illegal transition
`completed → approved` does not fail — the route happily applies it and even
stamps the approver and approval time. -/
theorem update_status_completed_to_approved_cex :
    update_loan_status "L3" .approved none none "A1" "t2"
        ⟨[⟨"L3", "U3", 1000, 15, 30, 1150, .completed, none, none, none, none⟩], [], []⟩ =
      (.ok ⟨"L3", "U3", 1000, 15, 30, 1150, .approved, some "A1", some "t2", none, none⟩,
        ⟨[⟨"L3", "U3", 1000, 15, 30, 1150, .approved, some "A1", some "t2", none, none⟩],
          [], []⟩) :=
  rfl

/-- `applyStatusUpdate` never changes the row id. -/
theorem applyStatusUpdate_id (st : LoanStatus) (dec : Option String) (conf : Option ℚ)
    (actor now : String) (l : Loan) :
    (applyStatusUpdate st dec conf actor now l).id = l.id := by
  unfold applyStatusUpdate
  split <;> rfl

/-- `applyStatusUpdate` always installs the requested status. -/
theorem applyStatusUpdate_status (st : LoanStatus) (dec : Option String) (conf : Option ℚ)
    (actor now : String) (l : Loan) :
    (applyStatusUpdate st dec conf actor now l).status = st := by
  unfold applyStatusUpdate
  split <;> rfl

/-- Updating the rows matching an id present in the table, the first matching
row of the result is the updated first matching row. -/
theorem mapUpdate_filter_head (lid : String) (f : Loan → Loan)
    (hf : ∀ l, (f l).id = l.id) :
    ∀ ls : List Loan, ls.any (fun l => l.id == lid) = true →
      ∃ l ∈ ls, ((ls.map fun l => if l.id = lid then f l else l).filter
          fun l => l.id == lid).head? = some (f l) := by
  intro ls
  induction ls with
  | nil => intro h; simp at h
  | cons x xs ih =>
    intro h
    by_cases hx : x.id = lid
    · refine ⟨x, List.mem_cons_self _ _, ?_⟩
      have hfx : ((f x).id == lid) = true := by
        rw [hf x, hx]
        exact beq_self_eq_true lid
      simp only [List.map_cons, if_pos hx, List.filter_cons, hfx, if_pos rfl]
      rfl
    · have hxb : (x.id == lid) = false := by
        simpa using hx
      have h' : xs.any (fun l => l.id == lid) = true := by
        simpa [List.any_cons, hxb] using h
      obtain ⟨l, hl, hhead⟩ := ih h'
      refine ⟨l, List.mem_cons_of_mem _ hl, ?_⟩
      simpa [List.map_cons, if_neg hx, List.filter_cons, hxb] using hhead

/-- Claim C3 (amended): `update_loan_status` validates nothing about the
transition: whenever a loan with the given id exists, EVERY requested status
(legal or not) is applied and returned with success. -/
theorem update_loan_status_applies_any_status (db : DB) (lid : String) (st : LoanStatus)
    (dec : Option String) (conf : Option ℚ) (actor now : String)
    (hex : db.loans.any (fun l => l.id == lid) = true) :
    ∃ l', (update_loan_status lid st dec conf actor now db).1 = .ok l' ∧ l'.status = st := by
  obtain ⟨l, _, hhead⟩ :=
    mapUpdate_filter_head lid (applyStatusUpdate st dec conf actor now)
      (applyStatusUpdate_id st dec conf actor now) db.loans hex
  refine ⟨applyStatusUpdate st dec conf actor now l, ?_,
    applyStatusUpdate_status st dec conf actor now l⟩
  unfold update_loan_status
  simp only [hhead]

/-- Claim C3, witness: the (illegal) transition `rejected → defaulted` is
applied without complaint. -/
theorem update_loan_status_applies_any_status_witness :
    ∃ l', (update_loan_status "L4" .defaulted none none "A1" "t3"
        ⟨[⟨"L4", "U4", 1000, 15, 30, 1150, .rejected, none, none, none, none⟩], [], []⟩).1
      = .ok l' ∧ l'.status = .defaulted :=
  update_loan_status_applies_any_status _ "L4" .defaulted none none "A1" "t3" rfl

/-- Claim C10: `store_customer_acceptance` matches rows only by `loan_id` —
any current status, any owner — writing `approved` with the approval stamp
when accepted and `rejected` with the stamp cleared when not, touching no
other table, and reporting success even when nothing matched (the update is
the identity on a table with no matching row, and the result is `success`
regardless). -/
theorem store_acceptance_spec (db : DB) (lid : String) (acc : Bool) :
    (store_acceptance lid acc db).1 =
      .acceptance true (if acc then .approved else .rejected) ∧
    (store_acceptance lid acc db).2.loans =
      db.loans.map (fun l =>
        if l.id = lid then
          { l with
            status := (if acc then LoanStatus.approved else LoanStatus.rejected),
            approved_at := (if acc then some "now()" else none) }
        else l) ∧
    (store_acceptance lid acc db).2.transactions = db.transactions ∧
    (store_acceptance lid acc db).2.profiles = db.profiles :=
  ⟨rfl, rfl, rfl, rfl⟩

end LoanApp

namespace LoanApp

/-! ### Claims about the assistant orchestration -/

/-- Claim C7: dispatching a tool-call name that is none of the four known
ones returns the `Unknown function` error payload as that call's output —
no exception — and the run goes on to complete. -/
theorem execute_function_unknown (name : String) (args : FunctionArgs) (uid : String)
    (db : DB) (h1 : name ≠ "calculate_loan_offer")
    (h2 : name ≠ "store_customer_acceptance") (h3 : name ≠ "get_loan_info")
    (h4 : name ≠ "complete_onboarding") :
    execute_function name args uid db = (.ok (.errorResult "Unknown function"), db) ∧
    (runLoop uid [RunStatus.requiresAction [(name, args)], RunStatus.completed] db).1 =
      RunOutcome.completed := by
  have hdisp : execute_function name args uid db =
      (.ok (.errorResult "Unknown function"), db) := by
    unfold execute_function
    rw [if_neg h1, if_neg h2, if_neg h3, if_neg h4]
  refine ⟨hdisp, ?_⟩
  simp only [runLoop, handle_tool_calls, hdisp]

/-- Claim C7, witness: the made-up tool name `frobnicate`. -/
theorem execute_function_unknown_witness :
    execute_function "frobnicate" ⟨none, none, none, none, none, none, none⟩ "U"
        ⟨[], [], []⟩ = (.ok (.errorResult "Unknown function"), ⟨[], [], []⟩) ∧
    (runLoop "U"
        [RunStatus.requiresAction
          [("frobnicate", ⟨none, none, none, none, none, none, none⟩)],
          RunStatus.completed] ⟨[], [], []⟩).1 = RunOutcome.completed :=
  execute_function_unknown "frobnicate" ⟨none, none, none, none, none, none, none⟩ "U"
    ⟨[], [], []⟩ (by decide) (by decide) (by decide) (by decide)

/-- Claim C6: a run whose poll reaches a `failed`/`cancelled`/`expired`
terminal status makes `send_message` raise carrying that status, and no
assistant-role message row is persisted for the turn (every assistant-role
row afterwards was already there before). -/
theorem send_message_run_failure (tk : Bool) (tid msg uid : String)
    (statuses : List RunStatus) (latest : Option String) (db : DB)
    (msgs : List MessageRow) (st : String)
    (hrun : (runLoop uid statuses db).1 = RunOutcome.terminated st) :
    (send_message tk tid msg uid statuses latest db msgs).1 = SendResult.runFailed st ∧
    ∀ r ∈ (send_message tk tid msg uid statuses latest db msgs).2.2,
      r.role = "assistant" → r ∈ msgs := by
  cases hR : runLoop uid statuses db with
  | mk o db' =>
    rw [hR] at hrun
    simp only at hrun
    subst hrun
    simp only [send_message, hR]
    refine ⟨trivial, ?_⟩
    intro r hr hrole
    unfold store_message at hr
    by_cases htk : tk
    · rw [if_pos htk] at hr
      rcases List.mem_append.mp hr with h | h
      · exact h
      · simp only [List.mem_singleton] at h
        rw [h] at hrole
        simp at hrole
    · rwa [if_neg htk] at hr

/-- Claim C6, witness: a run that goes `in_progress` then `failed`. -/
theorem send_message_run_failure_witness :
    (send_message true "T1" "hi" "U1" [RunStatus.in_progress, RunStatus.failed] none
      ⟨[], [], []⟩ []).1 = SendResult.runFailed "failed" :=
  (send_message_run_failure true "T1" "hi" "U1" [RunStatus.in_progress, RunStatus.failed]
    none ⟨[], [], []⟩ [] "failed" rfl).1

/-- Appending a row newer than everything in the list makes it the row that
`order created_at desc limit 1` returns. -/
theorem latestRow_append_newest (r : ThreadRow) :
    ∀ l : List ThreadRow, (∀ x ∈ l, x.created_at < r.created_at) →
      latestRow (l ++ [r]) = some r := by
  intro l
  induction l with
  | nil => intro _; rfl
  | cons x xs ih =>
    intro h
    have hx : x.created_at < r.created_at := h x (List.mem_cons_self x xs)
    have ih' : latestRow (xs.append [r]) = some r :=
      ih fun y hy => h y (List.mem_cons_of_mem x hy)
    simp only [List.cons_append, latestRow, ih']
    rw [if_pos hx]

/-- Claim C8: two sequential `get_or_create_thread` calls for the same user
return the same external thread handle — the row the first call persists (or
finds) is what the second call's most-recent-active lookup returns. -/
theorem get_or_create_thread_stable (s : ThreadState) (uid : String) (hwf : s.WF) :
    (get_or_create_thread uid (get_or_create_thread uid s).2).1 =
      (get_or_create_thread uid s).1 := by
  unfold ThreadState.WF at hwf
  cases hlk : lookupActiveThread uid s.rows with
  | some r =>
    simp only [get_or_create_thread, hlk]
  | none =>
    have hrow : lookupActiveThread uid
        (s.rows ++ [⟨uid, "thread-" ++ toString s.nextId, "active", s.clock⟩]) =
        some ⟨uid, "thread-" ++ toString s.nextId, "active", s.clock⟩ := by
      unfold lookupActiveThread
      rw [List.filter_append]
      have hpass :
          List.filter (fun r : ThreadRow => r.user_id == uid && r.status == "active")
            ([⟨uid, "thread-" ++ toString s.nextId, "active", s.clock⟩] : List ThreadRow) =
          ([⟨uid, "thread-" ++ toString s.nextId, "active", s.clock⟩] : List ThreadRow) := by
        simp [List.filter]
      rw [hpass]
      apply latestRow_append_newest
      intro x hx
      exact hwf x (List.mem_of_mem_filter hx)
    simp only [get_or_create_thread, hlk, hrow]

/-- Claim C8, witness: starting from an empty thread store. -/
theorem get_or_create_thread_stable_witness :
    (get_or_create_thread "U9" ((get_or_create_thread "U9" ⟨[], 0, 0⟩).2)).1 =
      (get_or_create_thread "U9" ⟨[], 0, 0⟩).1 :=
  get_or_create_thread_stable ⟨[], 0, 0⟩ "U9" (by intro r hr; cases hr)

end LoanApp
